import Mathlib

/-!
Shallow embedding of the MacroMoney analysis pipeline (src/app.py):
keyword-based axis scoring, decision-tree archetype classification,
weighted-sum severity, horizon/risk policy and portfolio rebalancing.
Weights and scores use ℚ; Python round(x, 2) is modelled exactly as
round-half-to-even on hundredths.
-/

attribute [local semireducible] Rat.add Rat.mul Rat.inv Rat.sub Rat.ofScientific

/-- The fixed five-asset universe (`assets` list in the source). -/
inductive Asset
  | equities
  | bonds
  | gold
  | commodities
  | crypto
deriving DecidableEq, Fintype

/-- The seven archetype keys of the `ARCHETYPES` dictionary. -/
inductive ArchetypeName
  | politicalShock
  | commodityBreakout
  | monetaryPolicyShock
  | corporateEarningsShock
  | tradeCommodityDeal
  | geopoliticalEscalation
  | localNoise
deriving DecidableEq, Fintype

/-- The display string of each archetype (the dictionary key in the source). -/
def ArchetypeName.name : ArchetypeName → String
  | .politicalShock => "Political Shock"
  | .commodityBreakout => "Commodity Price Breakout"
  | .monetaryPolicyShock => "Monetary Policy Shock"
  | .corporateEarningsShock => "Corporate Earnings Shock"
  | .tradeCommodityDeal => "Trade / Commodity Deal"
  | .geopoliticalEscalation => "Geopolitical Escalation"
  | .localNoise => "Local / Noise"

/-- Per-asset betas of each archetype (`ARCHETYPES[...]["betas"]`). -/
def betas : ArchetypeName → Asset → ℚ
  | .politicalShock, .equities => -(6/10)
  | .politicalShock, .bonds => 2/10
  | .politicalShock, .gold => 9/10
  | .politicalShock, .commodities => 3/10
  | .politicalShock, .crypto => -(4/10)
  | .commodityBreakout, .equities => -(2/10)
  | .commodityBreakout, .bonds => -(1/10)
  | .commodityBreakout, .gold => 8/10
  | .commodityBreakout, .commodities => 7/10
  | .commodityBreakout, .crypto => 1/10
  | .monetaryPolicyShock, .equities => -(4/10)
  | .monetaryPolicyShock, .bonds => -(5/10)
  | .monetaryPolicyShock, .gold => 4/10
  | .monetaryPolicyShock, .commodities => 5/10
  | .monetaryPolicyShock, .crypto => -(3/10)
  | .corporateEarningsShock, .equities => 4/10
  | .corporateEarningsShock, .bonds => 0
  | .corporateEarningsShock, .gold => 0
  | .corporateEarningsShock, .commodities => 1/10
  | .corporateEarningsShock, .crypto => 2/10
  | .tradeCommodityDeal, .equities => 2/10
  | .tradeCommodityDeal, .bonds => 0
  | .tradeCommodityDeal, .gold => 3/10
  | .tradeCommodityDeal, .commodities => 5/10
  | .tradeCommodityDeal, .crypto => 1/10
  | .geopoliticalEscalation, .equities => -(8/10)
  | .geopoliticalEscalation, .bonds => 3/10
  | .geopoliticalEscalation, .gold => 1
  | .geopoliticalEscalation, .commodities => 6/10
  | .geopoliticalEscalation, .crypto => -(5/10)
  | .localNoise, _ => 0

/-- The three investment-horizon labels of the sidebar selectbox. -/
inductive Horizon
  | short
  | medium
  | long
deriving DecidableEq, Fintype

/-- `HORIZON_DECAY` lookup table. -/
def HORIZON_DECAY : Horizon → ℚ
  | .short => 1
  | .medium => 7/10
  | .long => 4/10

/-- The three risk-tolerance labels of the sidebar selectbox. -/
inductive Risk
  | low
  | medium
  | high
deriving DecidableEq, Fintype

/-- The `{"Low": 0.5, "Medium": 1.0, "High": 1.5}` lookup inside
`rebalance_portfolio`. -/
def riskScale : Risk → ℚ
  | .low => 1/2
  | .medium => 1
  | .high => 3/2

/-- The fixed iteration order of the asset dictionary. -/
def assetList : List Asset :=
  [.equities, .bonds, .gold, .commodities, .crypto]

/-- Sum of a per-asset map over the asset universe
(`sum(new_weights.values())` in the source). -/
def sumAssets (f : Asset → ℚ) : ℚ :=
  (assetList.map f).sum

/-- `startsWithSeq hay needle` : `needle` is an initial segment of `hay`. -/
def startsWithSeq : List Char → List Char → Bool
  | _, [] => true
  | [], _ :: _ => false
  | a :: as, b :: bs => a == b && startsWithSeq as bs

/-- Python's substring test `needle in hay` on character lists. -/
def containsSeq : List Char → List Char → Bool
  | [], needle => needle.isEmpty
  | a :: t, needle => startsWithSeq (a :: t) needle || containsSeq t needle

/-- Python's `any(x in s for x in kws)`. -/
def containsAny (hay : List Char) (kws : List (List Char)) : Bool :=
  kws.any (fun n => containsSeq hay n)

/-- `news.lower()` : character-wise lowercasing. -/
def lowerStr (s : List Char) : List Char :=
  s.map Char.toLower

/-- Keyword group of the political / war rule. -/
def kwPolitical : List (List Char) :=
  ["war".toList, "attack".toList, "assassination".toList,
   "conflict".toList, "sanctions".toList]

/-- Keyword group of the trade / commodity-deal rule. -/
def kwTrade : List (List Char) :=
  ["deal".toList, "trade".toList, "billion".toList,
   "metal".toList, "commodity".toList]

/-- Keyword group of the corporate-earnings rule. -/
def kwEarnings : List (List Char) :=
  ["earnings".toList, "profit".toList, "loss".toList, "quarter".toList]

/-- Keyword group of the monetary-policy rule. -/
def kwMonetary : List (List Char) :=
  ["fed".toList, "inflation".toList, "interest rate".toList,
   "central bank".toList]

/-- The four named axes with their integer scores. -/
structure AxisScores where
  geopoliticalIntensity : ℕ
  economicScale : ℕ
  crossBorderImpact : ℕ
  assetTransmission : ℕ
deriving DecidableEq

/-- The rule-based axis scorer (function `macro_axis_scores` in the source):
lower-case the text, then the first matching keyword group fixes all four
axis scores; with no match all axes are 0. -/
def axis_scores (news : List Char) : AxisScores :=
  if containsAny (lowerStr news) kwPolitical then ⟨5, 4, 5, 5⟩
  else if containsAny (lowerStr news) kwTrade then ⟨2, 4, 4, 4⟩
  else if containsAny (lowerStr news) kwEarnings then ⟨1, 3, 2, 3⟩
  else if containsAny (lowerStr news) kwMonetary then ⟨1, 4, 4, 4⟩
  else ⟨0, 0, 0, 0⟩

/-- The fixed decision tree `classify_archetype`. -/
def classify_archetype (a : AxisScores) : ArchetypeName :=
  if 4 ≤ a.geopoliticalIntensity then .geopoliticalEscalation
  else if 4 ≤ a.economicScale ∧ 4 ≤ a.assetTransmission ∧
      2 ≤ a.geopoliticalIntensity then .tradeCommodityDeal
  else if a.geopoliticalIntensity ≤ 1 ∧ 3 ≤ a.economicScale ∧
      2 ≤ a.crossBorderImpact ∧ 3 ≤ a.assetTransmission then
    .corporateEarningsShock
  else if 4 ≤ a.economicScale ∧ a.geopoliticalIntensity ≤ 2 ∧
      3 ≤ a.assetTransmission then .monetaryPolicyShock
  else if a.geopoliticalIntensity = 0 ∧ a.economicScale = 0 then .localNoise
  else .politicalShock

/-- Round a rational to the nearest integer, ties to even
(the rounding mode of Python's `round`). -/
def roundHalfEven (q : ℚ) : ℤ :=
  if q - Rat.floor q < 1/2 then Rat.floor q
  else if 1/2 < q - Rat.floor q then Rat.floor q + 1
  else if Rat.floor q % 2 = 0 then Rat.floor q
  else Rat.floor q + 1

/-- Python's `round(x, 2)` on exact rationals. -/
def pyRound2 (x : ℚ) : ℚ :=
  (roundHalfEven (x * 100) : ℚ) / 100

/-- `compute_severity`: weighted sum of the raw axis scores
(weights 0.35 / 0.30 / 0.20 / 0.15), rounded to two decimals. -/
def compute_severity (a : AxisScores) : ℚ :=
  pyRound2 ((a.geopoliticalIntensity : ℚ) * (35/100) +
    (a.economicScale : ℚ) * (30/100) +
    (a.crossBorderImpact : ℚ) * (20/100) +
    (a.assetTransmission : ℚ) * (15/100))

/-- The per-asset adjustment inside `rebalance_portfolio`:
`betas[asset]*severity*decay*risk_scale*2`. -/
def adjustment (a : ArchetypeName) (x : Asset) (s : ℚ) (h : Horizon)
    (r : Risk) : ℚ :=
  betas a x * s * HORIZON_DECAY h * riskScale r * 2

/-- The clamped pre-normalization weights of `rebalance_portfolio`:
`new_weights[asset] = max(0, weights[asset] + adjustment)`. -/
def rawNewWeights (w : Asset → ℚ) (a : ArchetypeName) (s : ℚ) (h : Horizon)
    (r : Risk) : Asset → ℚ :=
  fun x => max 0 (w x + adjustment a x s h r)

/-- `rebalance_portfolio`: clamp, renormalize by the clamped total scaled to
100, and round each weight to two decimals. -/
def rebalance_portfolio (w : Asset → ℚ) (a : ArchetypeName) (s : ℚ)
    (h : Horizon) (r : Risk) : Asset → ℚ :=
  fun x => pyRound2 (rawNewWeights w a s h r x * 100 /
    sumAssets (rawNewWeights w a s h r))

/-- The analysis branch of the main app: classify and score the headline,
then rebalance only when the archetype is not noise and the horizon-adjusted
impact reaches the 1.5 trigger; otherwise the portfolio is left unchanged. -/
def analyze (news : List Char) (w : Asset → ℚ) (h : Horizon) (r : Risk) :
    Asset → ℚ :=
  if (classify_archetype (axis_scores news)).name = "Local / Noise" ∨
      compute_severity (axis_scores news) * HORIZON_DECAY h < 3/2 then w
  else rebalance_portfolio w (classify_archetype (axis_scores news))
    (compute_severity (axis_scores news)) h r

/-- The default equal-weight base portfolio of the sidebar (20 each). -/
def w20 : Asset → ℚ := fun _ => 20

/-! ### Helper lemmas -/

lemma ratFloor_eq_intFloor (q : ℚ) : (Rat.floor q : ℤ) = Int.floor q := by
  rw [Rat.floor_def', Rat.floor_def]

lemma roundHalfEven_nonneg {q : ℚ} (hq : 0 ≤ q) : 0 ≤ roundHalfEven q := by
  have hf : 0 ≤ Rat.floor q := by
    rw [ratFloor_eq_intFloor]
    exact Int.floor_nonneg.mpr hq
  unfold roundHalfEven
  split_ifs <;> omega

lemma abs_roundHalfEven_sub (q : ℚ) : |(roundHalfEven q : ℚ) - q| ≤ 1/2 := by
  have h1 : ((Rat.floor q : ℤ) : ℚ) ≤ q := by
    rw [ratFloor_eq_intFloor]; exact Int.floor_le q
  have h2 : q < ((Rat.floor q : ℤ) : ℚ) + 1 := by
    rw [ratFloor_eq_intFloor]; exact Int.lt_floor_add_one q
  unfold roundHalfEven
  split_ifs with hlt hgt heven <;>
    · rw [abs_le]
      push_cast
      constructor <;> linarith

lemma pyRound2_nonneg {x : ℚ} (hx : 0 ≤ x) : 0 ≤ pyRound2 x := by
  unfold pyRound2
  have := roundHalfEven_nonneg (q := x * 100) (by positivity)
  positivity

lemma pyRound2_close (x : ℚ) : |pyRound2 x - x| ≤ 1/200 := by
  have h := abs_roundHalfEven_sub (x * 100)
  unfold pyRound2
  have e : (roundHalfEven (x * 100) : ℚ) / 100 - x =
      ((roundHalfEven (x * 100) : ℚ) - x * 100) / 100 := by ring
  rw [e, abs_div]
  rw [show |(100 : ℚ)| = 100 by norm_num]
  linarith [div_le_div_of_nonneg_right h (c := (100:ℚ)) (by norm_num)]

/-- The axis scorer returns one of exactly five score vectors. -/
lemma axis_scores_cases (t : List Char) :
    axis_scores t = ⟨5, 4, 5, 5⟩ ∨ axis_scores t = ⟨2, 4, 4, 4⟩ ∨
    axis_scores t = ⟨1, 3, 2, 3⟩ ∨ axis_scores t = ⟨1, 4, 4, 4⟩ ∨
    axis_scores t = ⟨0, 0, 0, 0⟩ := by
  unfold axis_scores
  split
  · exact Or.inl rfl
  split
  · exact Or.inr (Or.inl rfl)
  split
  · exact Or.inr (Or.inr (Or.inl rfl))
  split
  · exact Or.inr (Or.inr (Or.inr (Or.inl rfl)))
  · exact Or.inr (Or.inr (Or.inr (Or.inr rfl)))

/-- The severity of any input text lies between 0 and 4.7. -/
lemma severity_range (t : List Char) :
    0 ≤ compute_severity (axis_scores t) ∧
    compute_severity (axis_scores t) ≤ 47/10 := by
  rcases axis_scores_cases t with h | h | h | h | h <;> rw [h] <;>
    constructor <;> decide

/-- Every beta in the archetype registry lies in [-1, 1]. -/
lemma betas_range : ∀ (a : ArchetypeName) (x : Asset),
    -1 ≤ betas a x ∧ betas a x ≤ 1 := by decide

lemma decay_range : ∀ h : Horizon,
    0 < HORIZON_DECAY h ∧ HORIZON_DECAY h ≤ 1 := by decide

lemma riskScale_range : ∀ r : Risk,
    0 < riskScale r ∧ riskScale r ≤ 3/2 := by decide

/-- With severity in [0, 4.7] the per-asset adjustment is bounded by 14.1
in absolute value. -/
lemma adjustment_bound (a : ArchetypeName) (x : Asset) {s : ℚ} (h : Horizon)
    (r : Risk) (hs0 : 0 ≤ s) (hs : s ≤ 47/10) :
    -(141/10) ≤ adjustment a x s h r ∧ adjustment a x s h r ≤ 141/10 := by
  obtain ⟨hb1, hb2⟩ := betas_range a x
  have hbs : -(47/10) ≤ betas a x * s ∧ betas a x * s ≤ 47/10 := by
    constructor <;> nlinarith
  unfold adjustment
  cases h <;> cases r <;> simp only [HORIZON_DECAY, riskScale] <;>
    constructor <;> nlinarith [hbs.1, hbs.2]

/-- In a portfolio of five non-negative weights summing to 100, some asset
holds weight at least 20. -/
lemma exists_weight_ge20 (w : Asset → ℚ)
    (hsum : sumAssets w = 100) : ∃ x, 20 ≤ w x := by
  by_contra hc
  push_neg at hc
  have h1 := hc .equities
  have h2 := hc .bonds
  have h3 := hc .gold
  have h4 := hc .commodities
  have h5 := hc .crypto
  simp only [sumAssets, assetList, List.map_cons, List.map_nil,
    List.sum_cons, List.sum_nil] at hsum
  linarith

/-- A per-asset map that is non-negative everywhere and positive somewhere
has a positive total. -/
lemma sumAssets_pos_of_mem (f : Asset → ℚ) (hnn : ∀ x, 0 ≤ f x) (x0 : Asset)
    (hp : 0 < f x0) : 0 < sumAssets f := by
  have h1 := hnn .equities
  have h2 := hnn .bonds
  have h3 := hnn .gold
  have h4 := hnn .commodities
  have h5 := hnn .crypto
  simp only [sumAssets, assetList, List.map_cons, List.map_nil,
    List.sum_cons, List.sum_nil]
  cases x0 <;> linarith

/-- The clamped pre-normalization total in `rebalance_portfolio` is strictly
positive for any valid portfolio and severity in [0, 4.7]. -/
lemma rawTotal_pos (w : Asset → ℚ) (a : ArchetypeName) {s : ℚ} (h : Horizon)
    (r : Risk) (hsum : sumAssets w = 100) (hs0 : 0 ≤ s)
    (hs : s ≤ 47/10) :
    0 < sumAssets (rawNewWeights w a s h r) := by
  obtain ⟨x0, hx0⟩ := exists_weight_ge20 w hsum
  have hadj := (adjustment_bound a x0 h r hs0 hs).1
  refine sumAssets_pos_of_mem _ (fun x => le_max_left 0 _) x0 ?_
  calc (0 : ℚ) < w x0 + adjustment a x0 s h r := by linarith
    _ ≤ rawNewWeights w a s h r x0 := le_max_right 0 _

/-- When the trigger condition fails the main branch leaves the portfolio
untouched. -/
lemma analyze_not_triggered (news : List Char) (w : Asset → ℚ) (h : Horizon)
    (r : Risk)
    (hcond : (classify_archetype (axis_scores news)).name = "Local / Noise" ∨
      compute_severity (axis_scores news) * HORIZON_DECAY h < 3/2) :
    analyze news w h r = w := by
  unfold analyze
  rw [if_pos hcond]

/-- When the archetype is not noise and the effective impact reaches 1.5 the
main branch calls the rebalancing engine. -/
lemma analyze_triggered (news : List Char) (w : Asset → ℚ) (h : Horizon)
    (r : Risk)
    (h1 : (classify_archetype (axis_scores news)).name ≠ "Local / Noise")
    (h2 : 3/2 ≤ compute_severity (axis_scores news) * HORIZON_DECAY h) :
    analyze news w h r = rebalance_portfolio w
      (classify_archetype (axis_scores news))
      (compute_severity (axis_scores news)) h r := by
  unfold analyze
  rw [if_neg (not_or.mpr ⟨h1, not_lt.mpr h2⟩)]

/-- Unfolding of `sumAssets` into the five per-asset terms. -/
lemma sumAssets_expand (f : Asset → ℚ) :
    sumAssets f = f .equities + f .bonds + f .gold + f .commodities +
      f .crypto := by
  simp only [sumAssets, assetList, List.map_cons, List.map_nil,
    List.sum_cons, List.sum_nil]
  ring

/-- The rebalanced weights of a valid portfolio are non-negative and their
sum stays within the accumulated two-decimal rounding error of 100. -/
lemma rebalance_props (w : Asset → ℚ) (a : ArchetypeName) {s : ℚ}
    (h : Horizon) (r : Risk) (_hnn : ∀ x, 0 ≤ w x) (hsum : sumAssets w = 100)
    (hs0 : 0 ≤ s) (hs : s ≤ 47/10) :
    |sumAssets (rebalance_portfolio w a s h r) - 100| ≤ 1/40 ∧
    ∀ x, 0 ≤ rebalance_portfolio w a s h r x := by
  have hTpos := rawTotal_pos w a h r hsum hs0 hs
  have hTne : sumAssets (rawNewWeights w a s h r) ≠ 0 := ne_of_gt hTpos
  have hraw : ∀ x, 0 ≤ rawNewWeights w a s h r x := fun x => le_max_left 0 _
  have hqnn : ∀ x, 0 ≤ rawNewWeights w a s h r x * 100 /
      sumAssets (rawNewWeights w a s h r) := fun x =>
    div_nonneg (mul_nonneg (hraw x) (by norm_num)) hTpos.le
  constructor
  · have hTdef := sumAssets_expand (rawNewWeights w a s h r)
    have hpre : rawNewWeights w a s h r .equities * 100 /
          sumAssets (rawNewWeights w a s h r) +
        rawNewWeights w a s h r .bonds * 100 /
          sumAssets (rawNewWeights w a s h r) +
        rawNewWeights w a s h r .gold * 100 /
          sumAssets (rawNewWeights w a s h r) +
        rawNewWeights w a s h r .commodities * 100 /
          sumAssets (rawNewWeights w a s h r) +
        rawNewWeights w a s h r .crypto * 100 /
          sumAssets (rawNewWeights w a s h r) = 100 := by
      field_simp
      rw [hTdef]
      ring
    have c1 := pyRound2_close (rawNewWeights w a s h r .equities * 100 /
      sumAssets (rawNewWeights w a s h r))
    have c2 := pyRound2_close (rawNewWeights w a s h r .bonds * 100 /
      sumAssets (rawNewWeights w a s h r))
    have c3 := pyRound2_close (rawNewWeights w a s h r .gold * 100 /
      sumAssets (rawNewWeights w a s h r))
    have c4 := pyRound2_close (rawNewWeights w a s h r .commodities * 100 /
      sumAssets (rawNewWeights w a s h r))
    have c5 := pyRound2_close (rawNewWeights w a s h r .crypto * 100 /
      sumAssets (rawNewWeights w a s h r))
    rw [abs_le] at c1 c2 c3 c4 c5
    rw [abs_le, sumAssets_expand (rebalance_portfolio w a s h r)]
    simp only [rebalance_portfolio]
    constructor <;> linarith
  · intro x
    exact pyRound2_nonneg (hqnn x)

/-! ### Claim theorems -/

/-- C1 counterexample: on the default equal-weight portfolio and a "war"
headline (a triggered rebalance with valid inputs), the returned weights sum
to 99.99, which differs from the base total 100 by more than 1e-6. -/
theorem weight_conservation_1e6_counterexample :
    (∀ x, 0 ≤ w20 x) ∧ sumAssets w20 = 100 ∧
    (classify_archetype (axis_scores ("war".toList))).name ≠ "Local / Noise" ∧
    3/2 ≤ compute_severity (axis_scores ("war".toList)) *
      HORIZON_DECAY .short ∧
    sumAssets (analyze ("war".toList) w20 .short .medium) = 9999/100 ∧
    ¬(|sumAssets (analyze ("war".toList) w20 .short .medium) - 100| ≤
      1/1000000) := by
  decide

/-- C1 (amended): for every valid base portfolio and every triggered
rebalance, the returned weights are all non-negative and their sum equals
the base total 100 within 1/40 = 0.025, the accumulated error of rounding
the five renormalized weights to two decimals. -/
theorem weight_conservation_within_rounding (news : List Char)
    (w : Asset → ℚ) (h : Horizon) (r : Risk) (hnn : ∀ x, 0 ≤ w x)
    (hsum : sumAssets w = 100)
    (h1 : (classify_archetype (axis_scores news)).name ≠ "Local / Noise")
    (h2 : 3/2 ≤ compute_severity (axis_scores news) * HORIZON_DECAY h) :
    |sumAssets (analyze news w h r) - 100| ≤ 1/40 ∧
    ∀ x, 0 ≤ analyze news w h r x := by
  rw [analyze_triggered news w h r h1 h2]
  exact rebalance_props w _ h r hnn hsum (severity_range news).1
    (severity_range news).2

/-- Witness for C1 at the "war" headline on the default portfolio. -/
theorem weight_conservation_within_rounding_witness :
    |sumAssets (analyze ("war".toList) w20 .short .medium) - 100| ≤ 1/40 ∧
    ∀ x, 0 ≤ analyze ("war".toList) w20 .short .medium x :=
  weight_conservation_within_rounding ("war".toList) w20 .short .medium
    (by decide) (by decide) (by decide) (by decide)

/-- C2 counterexample: the "war" keyword group yields severity 4.7, so the
severity is not normalized into [0,1] — the 0–5 axis scores enter the
convex combination undivided. -/
theorem severity_unit_interval_counterexample :
    compute_severity (axis_scores ("war".toList)) = 47/10 ∧
    ¬(compute_severity (axis_scores ("war".toList)) ≤ 1) := by
  decide

/-- C2 (amended): for every input text the severity produced by
`compute_severity` on the rule-based axis scores lies in [0, 4.7]; the
axis scores are combined raw (not divided by 5), so the bound is 4.7
rather than 1. -/
theorem severity_bounded (t : List Char) :
    0 ≤ compute_severity (axis_scores t) ∧
    compute_severity (axis_scores t) ≤ 47/10 :=
  severity_range t

/-- C3: rebalancing happens iff the archetype is not noise and the
horizon-adjusted impact reaches the 1.5 trigger; otherwise the output
weights are exactly the base weights. -/
theorem trigger_characterization (news : List Char) (w : Asset → ℚ)
    (h : Horizon) (r : Risk) :
    ((classify_archetype (axis_scores news)).name = "Local / Noise" ∨
      compute_severity (axis_scores news) * HORIZON_DECAY h < 3/2 →
      analyze news w h r = w) ∧
    ((classify_archetype (axis_scores news)).name ≠ "Local / Noise" →
      3/2 ≤ compute_severity (axis_scores news) * HORIZON_DECAY h →
      analyze news w h r = rebalance_portfolio w
        (classify_archetype (axis_scores news))
        (compute_severity (axis_scores news)) h r) :=
  ⟨analyze_not_triggered news w h r, analyze_triggered news w h r⟩

/-- Witness for C3: a noise headline leaves the default portfolio unchanged
and a "war" headline invokes the rebalancing engine. -/
theorem trigger_characterization_witness :
    analyze ("hello".toList) w20 .short .medium = w20 ∧
    analyze ("war".toList) w20 .short .medium = rebalance_portfolio w20
      (classify_archetype (axis_scores ("war".toList)))
      (compute_severity (axis_scores ("war".toList))) .short .medium :=
  ⟨(trigger_characterization ("hello".toList) w20 .short .medium).1
      (by decide),
   (trigger_characterization ("war".toList) w20 .short .medium).2
      (by decide) (by decide)⟩

/-- C4: each raw new weight is `max 0 (baseWeight + beta*severity*decay*
riskScale*2)`, hence never negative, and an asset whose unclamped
adjustment drives it negative ends at exactly 0 before renormalization. -/
theorem adjustment_clamping (w : Asset → ℚ) (a : ArchetypeName) (s : ℚ)
    (h : Horizon) (r : Risk) (x : Asset) :
    rawNewWeights w a s h r x =
      max 0 (w x + betas a x * s * HORIZON_DECAY h * riskScale r * 2) ∧
    0 ≤ rawNewWeights w a s h r x ∧
    (w x + adjustment a x s h r < 0 → rawNewWeights w a s h r x = 0) :=
  ⟨rfl, le_max_left 0 _, fun hneg => max_eq_left (le_of_lt hneg)⟩

/-- Witness for C4: a 1%-weight equities position under a severity-4.7
geopolitical shock clamps to exactly 0. -/
theorem adjustment_clamping_witness :
    rawNewWeights (fun _ => 1) .geopoliticalEscalation (47/10) .short .high
      .equities = 0 :=
  (adjustment_clamping (fun _ => 1) .geopoliticalEscalation (47/10) .short
    .high .equities).2.2 (by decide)

/-- C5 counterexample: the headline "Military invasion" contains both
"invasion" and "military" (case-insensitively) yet classifies as
Local / Noise with geopolitical intensity 0 — neither word is in the
keyword list. -/
theorem geopolitical_keywords_counterexample :
    containsSeq (lowerStr ("Military invasion".toList))
      ("invasion".toList) = true ∧
    containsSeq (lowerStr ("Military invasion".toList))
      ("military".toList) = true ∧
    (axis_scores ("Military invasion".toList)).geopoliticalIntensity = 0 ∧
    (classify_archetype (axis_scores ("Military invasion".toList))).name =
      "Local / Noise" := by
  decide

/-- C5 (amended): every headline containing "war" (case-insensitive)
classifies as Geopolitical Escalation with the geopolitical axis at its
maximum 5; "invasion" and "military" are not keywords of the rule. -/
theorem war_headline_geopolitical (t : List Char)
    (hw : containsSeq (lowerStr t) ("war".toList) = true) :
    (axis_scores t).geopoliticalIntensity = 5 ∧
    (classify_archetype (axis_scores t)).name = "Geopolitical Escalation" := by
  have hc : containsAny (lowerStr t) kwPolitical = true := by
    simp only [containsAny, kwPolitical, List.any_cons, List.any_nil,
      Bool.or_eq_true]
    exact Or.inl hw
  have ha : axis_scores t = ⟨5, 4, 5, 5⟩ := by
    unfold axis_scores
    rw [hc]
    exact if_pos rfl
  rw [ha]
  exact ⟨rfl, rfl⟩

/-- Witness for C5 at the headline "War breaks out". -/
theorem war_headline_geopolitical_witness :
    (axis_scores ("War breaks out".toList)).geopoliticalIntensity = 5 ∧
    (classify_archetype (axis_scores ("War breaks out".toList))).name =
      "Geopolitical Escalation" :=
  war_headline_geopolitical ("War breaks out".toList) (by decide)

/-- C6: the decision tree never returns Monetary Policy Shock, Political
Shock or Commodity Price Breakout on any axis vector produced by the rule
scorer; in particular the monetary-policy vector (1,4,4,4) — e.g. from
"central bank" — classifies as Corporate Earnings Shock because the
earnings branch is tested first. -/
theorem unreachable_archetypes :
    (∀ t : List Char,
      (classify_archetype (axis_scores t)).name ≠ "Monetary Policy Shock" ∧
      (classify_archetype (axis_scores t)).name ≠ "Political Shock" ∧
      (classify_archetype (axis_scores t)).name ≠
        "Commodity Price Breakout") ∧
    axis_scores ("central bank rate decision".toList) = ⟨1, 4, 4, 4⟩ ∧
    classify_archetype ⟨1, 4, 4, 4⟩ = .corporateEarningsShock := by
  refine ⟨fun t => ?_, by decide, by decide⟩
  rcases axis_scores_cases t with h | h | h | h | h <;> rw [h] <;>
    exact ⟨by decide, by decide, by decide⟩

/-- C7: when no keyword rule matches, all four axis scores are 0 and the
classifier emits the noise archetype. -/
theorem no_match_yields_noise (t : List Char)
    (h1 : containsAny (lowerStr t) kwPolitical = false)
    (h2 : containsAny (lowerStr t) kwTrade = false)
    (h3 : containsAny (lowerStr t) kwEarnings = false)
    (h4 : containsAny (lowerStr t) kwMonetary = false) :
    axis_scores t = ⟨0, 0, 0, 0⟩ ∧
    (classify_archetype (axis_scores t)).name = "Local / Noise" := by
  have ha : axis_scores t = ⟨0, 0, 0, 0⟩ := by
    unfold axis_scores
    rw [h1, h2, h3, h4]
    decide
  exact ⟨ha, by rw [ha]; rfl⟩

/-- Witness for C7 at a headline matching no keyword group. -/
theorem no_match_yields_noise_witness :
    axis_scores ("sunny day in town".toList) = ⟨0, 0, 0, 0⟩ ∧
    (classify_archetype (axis_scores ("sunny day in town".toList))).name =
      "Local / Noise" :=
  no_match_yields_noise ("sunny day in town".toList) (by decide) (by decide)
    (by decide) (by decide)

/-- C8: the headline "Q3 earnings beat expectations" classifies as
Corporate Earnings Shock, that archetype's equities beta is positive, and
the effective impact is non-negative for every horizon. -/
theorem earnings_headline_scenario :
    (classify_archetype
      (axis_scores ("Q3 earnings beat expectations".toList))).name =
      "Corporate Earnings Shock" ∧
    0 < betas .corporateEarningsShock .equities ∧
    ∀ h : Horizon, 0 ≤ compute_severity
      (axis_scores ("Q3 earnings beat expectations".toList)) *
      HORIZON_DECAY h := by
  decide

/-- C9: holding archetype, horizon and risk fixed, a strictly larger
(non-negative) severity never shrinks the absolute per-asset adjustment. -/
theorem adjustment_monotone_in_severity (a : ArchetypeName) (x : Asset)
    (h : Horizon) (r : Risk) (s s' : ℚ) (hs0 : 0 ≤ s) (hss : s < s')
    (_hb : betas a x ≠ 0) :
    |adjustment a x s h r| ≤ |adjustment a x s' h r| := by
  have e : ∀ u : ℚ, adjustment a x u h r =
      betas a x * HORIZON_DECAY h * riskScale r * 2 * u := by
    intro u
    unfold adjustment
    ring
  rw [e s, e s',
    abs_mul (betas a x * HORIZON_DECAY h * riskScale r * 2) s,
    abs_mul (betas a x * HORIZON_DECAY h * riskScale r * 2) s']
  have habs : |s| ≤ |s'| := by
    rw [abs_of_nonneg hs0, abs_of_nonneg (hs0.trans hss.le)]
    exact hss.le
  exact mul_le_mul_of_nonneg_left habs (abs_nonneg _)

/-- Witness for C9 on the equities beta of Geopolitical Escalation at
severities 1 < 2. -/
theorem adjustment_monotone_in_severity_witness :
    |adjustment .geopoliticalEscalation .equities 1 .short .medium| ≤
      |adjustment .geopoliticalEscalation .equities 2 .short .medium| :=
  adjustment_monotone_in_severity .geopoliticalEscalation .equities .short
    .medium 1 2 (by decide) (by decide) (by decide)

/-- C10: for every valid portfolio, archetype, severity in the reachable
range [0, 4.7] and any horizon/risk selection, the clamped pre-normalization
total in `rebalance_portfolio` is strictly positive, so the renormalization
never divides by zero. -/
theorem renormalization_total_positive (w : Asset → ℚ) (a : ArchetypeName)
    (s : ℚ) (h : Horizon) (r : Risk) (_hnn : ∀ x, 0 ≤ w x)
    (hsum : sumAssets w = 100) (hs0 : 0 ≤ s) (hs : s ≤ 47/10) :
    0 < sumAssets (rawNewWeights w a s h r) :=
  rawTotal_pos w a h r hsum hs0 hs

/-- Witness for C10 on the default portfolio under the strongest shock. -/
theorem renormalization_total_positive_witness :
    0 < sumAssets
      (rawNewWeights w20 .geopoliticalEscalation (47/10) .short .high) :=
  renormalization_total_positive w20 .geopoliticalEscalation (47/10) .short
    .high (by decide) (by decide) (by decide) (by decide)
